import Mathlib

/-!
Shallow embedding of the particle system core in `src/particle_system.rs`
(Pradene/particle_system).

CPU-side bookkeeping (fields `particles_count`, `max_particles`,
`current_buffer`, `particles_shape`, `emission_mode`, `lifetime`, `frame`,
`accumulated_emit`, `state` of `ParticleSystem`, and the public methods
`new`, `update`, `emit`, `render`, `swap_buffer`, `toggle_shape`, `pause`,
`resume`, `restart`, `is_paused`) is translated directly from the source.

Machine-number conventions: the Rust `u32`/`usize` counters are embedded as
`Nat` (no quantity in any verified scenario approaches `2^32`, and the only
potentially unbounded counter, `accumulated_emit`, is always consumed through
`min`-clamping, so wrap-around is irrelevant to the stated properties).
`f32` scalars (`delta_time`, `lifetime`) are embedded as exact rationals `ℚ`;
the Rust cast `x as u32` on a float is `(Int.floor x).toNat` (truncation
toward zero, clamped at 0 — these agree for every value a nonnegative float
cast can produce below `2^32`), and `x.ceil() as u32` is `(Int.ceil x).toNat`.

GPU-side state: the WGSL shaders (`emit.wgsl`, `update.wgsl`,
`compact.wgsl`, `render.wgsl`) referenced by `include_str!` are not part of
the source tree; the GPU-resident particle data is therefore modelled from
the spec (see the doc comments on `alive_particles`, `update`, `emit`,
`emit_write_slots`).  A particle record is abstracted to its remaining
lifetime (the spec's inverse encoding: alive iff remaining lifetime `> 0`;
the `Particle` struct in this snapshot carries `lifetime` and no `age`
field), since no verified property depends on positions, velocities, color
or mass.
-/

namespace PSys

inductive ParticleShape
  | Points
  | Quads
deriving DecidableEq

inductive ParticleEmissionMode
  | Burst (count : ℕ)
  | Continuous (rate : ℕ)
deriving DecidableEq

inductive SimulationState
  | Playing
  | Paused
deriving DecidableEq

structure ParticleSystemInfo where
  shape : ParticleShape
  emission_mode : ParticleEmissionMode
  lifetime : ℚ

@[ext]
structure ParticleSystem where
  particles_count : ℕ
  max_particles : ℕ
  current_buffer : ℕ
  particles_shape : ParticleShape
  emission_mode : ParticleEmissionMode
  lifetime : ℚ
  frame : ℕ
  accumulated_emit : ℕ
  state : SimulationState
  /-- Modelled from the spec (shaders absent from the source tree): the
  packed live region `[0, compact_buffer)` of the current GPU particle
  buffer, each record abstracted to its remaining lifetime.  The spec (§4.4)
  states Compact packs exactly the alive particles contiguously at the
  front and that memory past the alive count is garbage that nothing reads. -/
  alive_particles : List ℚ
  /-- The `u32` stored in the 4-byte counter buffer (`compact_buffer` in the
  source): written to 0 by the CPU before each compact pass and on restart,
  and holding the atomic alive counter after the GPU passes. -/
  compact_buffer : ℕ
deriving DecidableEq

namespace ParticleSystem

/-- `ParticleSystem::new` (construction): capacity is the burst count for
`Burst(count)` and `rate * lifetime.ceil() as u32` for `Continuous(rate)`;
counters start at zero, role index 0, state `Playing`.  Freshly created
wgpu buffers are zero-filled, so the live region is empty. -/
def new (info : ParticleSystemInfo) : ParticleSystem :=
  { particles_count := 0
    max_particles :=
      match info.emission_mode with
      | ParticleEmissionMode.Burst count => count
      | ParticleEmissionMode.Continuous rate => rate * (Int.ceil info.lifetime).toNat
    current_buffer := 0
    particles_shape := info.shape
    emission_mode := info.emission_mode
    lifetime := info.lifetime
    frame := 0
    accumulated_emit := 0
    state := SimulationState.Playing
    alive_particles := []
    compact_buffer := 0 }

/-- `ParticleSystem::is_paused`. -/
def is_paused (s : ParticleSystem) : Bool :=
  decide (s.state = SimulationState.Paused)

/-- `ParticleSystem::swap_buffer`: `current_buffer = 1 - current_buffer`
(pure role flip, no data movement). -/
def swap_buffer (s : ParticleSystem) : ParticleSystem :=
  { s with current_buffer := 1 - s.current_buffer }

/-- `ParticleSystem::update_particles` (the Update compute pass).  Modelled
from the spec: integrates every slot, incrementing age by `delta_time` — in
the inverse encoding, decrementing each remaining lifetime by `dt` — writing
into the companion buffer (the ping-pong move itself is abstracted into the
role flip `swap_buffer` that follows in `update`). -/
def update_particles (dt : ℚ) (s : ParticleSystem) : ParticleSystem :=
  { s with alive_particles := s.alive_particles.map (fun q => q - dt) }

/-- `ParticleSystem::compact_particles` (the Compact compute pass).  The CPU
writes 0 into the counter buffer, then the GPU pass copies each alive slot
(remaining lifetime `> 0`) to the companion buffer at an atomically
reserved index; the final counter value is the number of alive particles.
Modelled from the spec: the packed output is the alive subset of the live
region and the counter ends at its length. -/
def compact_particles (s : ParticleSystem) : ParticleSystem :=
  let packed := s.alive_particles.filter (fun q => decide (0 < q))
  { s with alive_particles := packed, compact_buffer := packed.length }

/-- The emission request an un-paused `update` adds to `accumulated_emit`:
`(rate as f32 * delta_time) as u32` for `Continuous(rate)` (the float cast
truncates — embedded as `(Int.floor (rate * dt)).toNat`), and the burst
count on frame 0 only for `Burst(count)`. -/
def update_inc (dt : ℚ) (s : ParticleSystem) : ℕ :=
  match s.emission_mode with
  | ParticleEmissionMode.Continuous rate => (Int.floor ((rate : ℚ) * dt)).toNat
  | ParticleEmissionMode.Burst count => if s.frame = 0 then count else 0

/-- `ParticleSystem::update` (public): early-return while paused; otherwise
accumulate the emission request, run the Update pass, swap, run the Compact
pass, swap, and increment the frame counter. -/
def update (dt : ℚ) (s : ParticleSystem) : ParticleSystem :=
  if s.is_paused then s
  else
    let s1 := { s with accumulated_emit := s.accumulated_emit + update_inc dt s }
    let s2 := (update_particles dt s1).swap_buffer
    let s3 := (compact_particles s2).swap_buffer
    { s3 with frame := s3.frame + 1 }

/-- `ParticleSystem::emit` (public): early-return when nothing is pending;
otherwise clamp to the free space `max_particles.saturating_sub
(particles_count)`, and when positive, run the emit pass (append
`actual_emit` fresh records with the configured lifetime — the write
positions are modelled in `emit_write_slots`), subtract the emitted amount
from the accumulator and add it to `particles_count`.  No pause gate
appears in the source. -/
def emit (s : ParticleSystem) : ParticleSystem :=
  let particles_to_emit := s.accumulated_emit
  if particles_to_emit = 0 then s
  else
    let space_available := s.max_particles - s.particles_count
    let actual_emit := min particles_to_emit space_available
    if 0 < actual_emit then
      { s with
        alive_particles := s.alive_particles ++ List.replicate actual_emit s.lifetime
        compact_buffer := s.compact_buffer + actual_emit
        accumulated_emit := s.accumulated_emit - actual_emit
        particles_count := s.particles_count + actual_emit }
    else s

/-- The number of particles an `emit` call actually emits from state `s`
(0 on the early return, `min(pending, max_particles - particles_count)`
otherwise — the two coincide, since `min 0 _ = 0`). -/
def emit_actual (s : ParticleSystem) : ℕ :=
  min s.accumulated_emit (s.max_particles - s.particles_count)

/-- Modelled from the spec (the emit shader is absent from the source
tree): each emitted record is written at index
`alive_count + local_atomic_offset` of the target buffer (§4.2), the alive
count being the atomic counter's value, so an `emit` call writes exactly
the slots `compact_buffer + j` for `j < emit_actual`. -/
def emit_write_slots (s : ParticleSystem) : List ℕ :=
  (List.range (emit_actual s)).map (fun j => s.compact_buffer + j)

/-- `ParticleSystem::render`: writes the camera uniforms and records a draw
of `particles_count` instances; it takes `&self` and mutates no simulation
state, and has no pause gate. -/
def render (s : ParticleSystem) : ParticleSystem := s

/-- `ParticleSystem::toggle_shape`. -/
def toggle_shape (s : ParticleSystem) : ParticleSystem :=
  { s with particles_shape :=
      match s.particles_shape with
      | ParticleShape.Points => ParticleShape.Quads
      | ParticleShape.Quads => ParticleShape.Points }

/-- `ParticleSystem::pause`. -/
def pause (s : ParticleSystem) : ParticleSystem :=
  { s with state := SimulationState.Paused }

/-- `ParticleSystem::resume`. -/
def resume (s : ParticleSystem) : ParticleSystem :=
  { s with state := SimulationState.Playing }

/-- `ParticleSystem::restart`: zero `particles_count`, `accumulated_emit`
and `frame`, write 0 into the counter buffer, force `Playing`.  The
particle buffers are neither cleared, deallocated nor resized; the live
region `[0, compact_buffer)` becomes empty because the counter is zeroed. -/
def restart (s : ParticleSystem) : ParticleSystem :=
  { s with
    particles_count := 0
    accumulated_emit := 0
    frame := 0
    compact_buffer := 0
    alive_particles := []
    state := SimulationState.Playing }

end ParticleSystem

/-- The external operations of the core: the per-frame `update`/`emit`/
`render` calls and the four input commands. -/
inductive Op
  | update (dt : ℚ)
  | emit
  | render
  | restart
  | pause
  | resume
  | toggle_shape
deriving DecidableEq

def applyOp (op : Op) (s : ParticleSystem) : ParticleSystem :=
  match op with
  | Op.update dt => s.update dt
  | Op.emit => s.emit
  | Op.render => s.render
  | Op.restart => s.restart
  | Op.pause => s.pause
  | Op.resume => s.resume
  | Op.toggle_shape => s.toggle_shape

def run (ops : List Op) (s : ParticleSystem) : ParticleSystem :=
  ops.foldl (fun s op => applyOp op s) s

/-- A state is reachable when some operation sequence produces it from a
freshly constructed system. -/
def Reachable (s : ParticleSystem) : Prop :=
  ∃ (info : ParticleSystemInfo) (ops : List Op), s = run ops (ParticleSystem.new info)

open ParticleSystem in
/-- State invariant maintained by every operation: the CPU count respects
capacity, the counter buffer holds the live-region length, the live region
never exceeds the CPU count, the buffer role is 0 between frames (each
`update` flips it exactly twice), and in burst mode capacity equals the
burst count, the pre-first-frame accumulator and count are zero, and
pending-plus-alive never exceeds capacity. -/
def Inv (s : ParticleSystem) : Prop :=
  s.particles_count ≤ s.max_particles ∧
  s.compact_buffer = s.alive_particles.length ∧
  s.alive_particles.length ≤ s.particles_count ∧
  s.current_buffer = 0 ∧
  ∀ n, s.emission_mode = ParticleEmissionMode.Burst n →
    s.max_particles = n ∧
    (s.frame = 0 → s.accumulated_emit = 0 ∧ s.particles_count = 0) ∧
    s.accumulated_emit + s.particles_count ≤ s.max_particles

/-- One displayed frame of the application loop: `update` then `emit`
(`render` mutates nothing); `frame_ops k dt` is `k` such frames. -/
def frame_ops (k : ℕ) (dt : ℚ) : List Op :=
  (List.replicate k [Op.update dt, Op.emit]).flatten

/-- The spec's continuous-rate example configuration: `Continuous(100)`,
lifetime 1 s (capacity `100 × ⌈1⌉ = 100`). -/
def contInfo : ParticleSystemInfo :=
  { shape := ParticleShape.Points
    emission_mode := ParticleEmissionMode.Continuous 100
    lifetime := 1 }

/-- The spec's end-to-end scenario configuration: `Burst(1000)`,
lifetime 2 s, `Point` shape. -/
def burstInfo : ParticleSystemInfo :=
  { shape := ParticleShape.Points
    emission_mode := ParticleEmissionMode.Burst 1000
    lifetime := 2 }

/-- The burst scenario's state after `j ≥ 1` frames at `dt = 1/60`, while
all 1000 particles are still alive: each has remaining lifetime
`2 - (j-1)/60` (they are emitted at the end of frame 1 and aged once per
later frame). -/
def bState (j : ℕ) : ParticleSystem :=
  { particles_count := 1000
    max_particles := 1000
    current_buffer := 0
    particles_shape := ParticleShape.Points
    emission_mode := ParticleEmissionMode.Burst 1000
    lifetime := 2
    frame := j
    accumulated_emit := 0
    state := SimulationState.Playing
    alive_particles := List.replicate 1000 (2 - ((j : ℚ) - 1) * (1/60))
    compact_buffer := 1000 }

/-- The burst scenario's state after `j ≥ 121` frames: every particle has
expired and been dropped by Compact; the CPU-side `particles_count` still
reads 1000. -/
def bDead (j : ℕ) : ParticleSystem :=
  { particles_count := 1000
    max_particles := 1000
    current_buffer := 0
    particles_shape := ParticleShape.Points
    emission_mode := ParticleEmissionMode.Burst 1000
    lifetime := 2
    frame := j
    accumulated_emit := 0
    state := SimulationState.Playing
    alive_particles := []
    compact_buffer := 0 }

namespace ParticleSystem

lemma update_paused {s : ParticleSystem} (dt : ℚ)
    (h : s.state = SimulationState.Paused) : update dt s = s := by
  simp [update, is_paused, h]

lemma update_playing {s : ParticleSystem} (dt : ℚ)
    (h : s.state = SimulationState.Playing) :
    update dt s =
      { s with
        accumulated_emit := s.accumulated_emit + update_inc dt s
        alive_particles :=
          (s.alive_particles.map (fun q => q - dt)).filter (fun q => decide (0 < q))
        compact_buffer :=
          ((s.alive_particles.map (fun q => q - dt)).filter (fun q => decide (0 < q))).length
        current_buffer := 1 - (1 - s.current_buffer)
        frame := s.frame + 1 } := by
  simp [update, is_paused, h, update_particles, compact_particles, swap_buffer]

lemma emit_eq (s : ParticleSystem) :
    emit s =
      if 0 < emit_actual s then
        { s with
          alive_particles := s.alive_particles ++ List.replicate (emit_actual s) s.lifetime
          compact_buffer := s.compact_buffer + emit_actual s
          accumulated_emit := s.accumulated_emit - emit_actual s
          particles_count := s.particles_count + emit_actual s }
      else s := by
  by_cases h : s.accumulated_emit = 0
  · simp [emit, emit_actual, h]
  · simp [emit, emit_actual, h]

lemma emit_particles_count (s : ParticleSystem) :
    (emit s).particles_count = s.particles_count + emit_actual s := by
  rw [emit_eq]; split
  · rfl
  · omega

lemma emit_accumulated_emit (s : ParticleSystem) :
    (emit s).accumulated_emit = s.accumulated_emit - emit_actual s := by
  rw [emit_eq]; split
  · rfl
  · rename_i h
    have : emit_actual s = 0 := by omega
    omega

lemma emit_compact_buffer (s : ParticleSystem) :
    (emit s).compact_buffer = s.compact_buffer + emit_actual s := by
  rw [emit_eq]; split
  · rfl
  · omega

lemma emit_alive_particles (s : ParticleSystem) :
    (emit s).alive_particles =
      s.alive_particles ++ List.replicate (emit_actual s) s.lifetime := by
  rw [emit_eq]; split
  · rfl
  · rename_i h
    have h0 : emit_actual s = 0 := by omega
    simp [h0]

lemma emit_preserves (s : ParticleSystem) :
    (emit s).max_particles = s.max_particles ∧
    (emit s).current_buffer = s.current_buffer ∧
    (emit s).emission_mode = s.emission_mode ∧
    (emit s).lifetime = s.lifetime ∧
    (emit s).frame = s.frame ∧
    (emit s).state = s.state ∧
    (emit s).particles_shape = s.particles_shape := by
  rw [emit_eq]; split <;> exact ⟨rfl, rfl, rfl, rfl, rfl, rfl, rfl⟩

lemma update_preserves (dt : ℚ) (s : ParticleSystem) :
    (update dt s).max_particles = s.max_particles ∧
    (update dt s).emission_mode = s.emission_mode ∧
    (update dt s).lifetime = s.lifetime ∧
    (update dt s).state = s.state ∧
    (update dt s).particles_count = s.particles_count ∧
    (update dt s).particles_shape = s.particles_shape := by
  cases h : s.state
  · rw [update_playing dt h]; exact ⟨rfl, rfl, rfl, h, rfl, rfl⟩
  · rw [update_paused dt h]; exact ⟨rfl, rfl, rfl, h, rfl, rfl⟩

lemma filter_pos_replicate {a : ℚ} {n : ℕ} (h : 0 < a) :
    (List.replicate n a).filter (fun q => decide (0 < q)) = List.replicate n a := by
  induction n with
  | zero => rfl
  | succ n ih => simp [List.replicate_succ, List.filter_cons, h, ih]

lemma filter_nonpos_replicate {a : ℚ} {n : ℕ} (h : ¬ 0 < a) :
    (List.replicate n a).filter (fun q => decide (0 < q)) = [] := by
  induction n with
  | zero => rfl
  | succ n ih => simp [List.replicate_succ, List.filter_cons, h, ih]

end ParticleSystem

lemma run_append (l₁ l₂ : List Op) (s : ParticleSystem) :
    run (l₁ ++ l₂) s = run l₂ (run l₁ s) := by
  simp [run, List.foldl_append]

lemma run_frame_ops_zero (dt : ℚ) (s : ParticleSystem) :
    run (frame_ops 0 dt) s = s := rfl

lemma run_frame_ops_succ (k : ℕ) (dt : ℚ) (s : ParticleSystem) :
    run (frame_ops (k + 1) dt) s =
      ParticleSystem.emit (ParticleSystem.update dt (run (frame_ops k dt) s)) := by
  have h : frame_ops (k + 1) dt = frame_ops k dt ++ [Op.update dt, Op.emit] := by
    simp [frame_ops, List.replicate_succ' k]
  rw [h, run_append]
  rfl

open ParticleSystem in
lemma inv_new (info : ParticleSystemInfo) : Inv (ParticleSystem.new info) := by
  refine ⟨Nat.zero_le _, rfl, Nat.le_refl _, rfl, ?_⟩
  intro n hn
  simp only [ParticleSystem.new] at hn
  refine ⟨?_, fun _ => ⟨rfl, rfl⟩, ?_⟩
  · simp [ParticleSystem.new, hn]
  · simp [ParticleSystem.new]

open ParticleSystem in
lemma inv_update (dt : ℚ) {s : ParticleSystem} (h : Inv s) : Inv (update dt s) := by
  obtain ⟨h1, h2, h3, h4, h5⟩ := h
  cases hst : s.state with
  | Paused => rw [update_paused dt hst]; exact ⟨h1, h2, h3, h4, h5⟩
  | Playing =>
    rw [update_playing dt hst]
    refine ⟨h1, rfl, ?_, by simp [h4], ?_⟩
    · calc ((s.alive_particles.map (fun q => q - dt)).filter
            (fun q => decide (0 < q))).length
          ≤ (s.alive_particles.map (fun q => q - dt)).length :=
            List.length_filter_le _ _
        _ = s.alive_particles.length := List.length_map _ _
        _ ≤ s.particles_count := h3
    · intro n hn
      obtain ⟨hb1, hb2, hb3⟩ := h5 n hn
      have hn' : s.emission_mode = ParticleEmissionMode.Burst n := hn
      have hinc : update_inc dt s = if s.frame = 0 then n else 0 := by
        simp [update_inc, hn']
      refine ⟨hb1, ?_, ?_⟩
      · intro hf
        simp at hf
      · show s.accumulated_emit + update_inc dt s + s.particles_count ≤ s.max_particles
        rw [hinc]
        by_cases hf : s.frame = 0
        · obtain ⟨ha, hc⟩ := hb2 hf
          simp [hf, ha, hc, hb1]
        · simp only [hf, if_false]
          omega

open ParticleSystem in
lemma inv_emit {s : ParticleSystem} (h : Inv s) : Inv (emit s) := by
  obtain ⟨h1, h2, h3, h4, h5⟩ := h
  have hmin : emit_actual s ≤ s.max_particles - s.particles_count :=
    Nat.min_le_right _ _
  rw [emit_eq]
  split
  · rename_i hpos
    refine ⟨?_, ?_, ?_, h4, ?_⟩
    · show s.particles_count + emit_actual s ≤ s.max_particles
      omega
    · show s.compact_buffer + emit_actual s =
        (s.alive_particles ++ List.replicate (emit_actual s) s.lifetime).length
      simp [h2]
    · show (s.alive_particles ++ List.replicate (emit_actual s) s.lifetime).length ≤
        s.particles_count + emit_actual s
      simp
      omega
    · intro n hn
      obtain ⟨hb1, hb2, hb3⟩ := h5 n hn
      refine ⟨hb1, ?_, ?_⟩
      · intro hf
        obtain ⟨ha, _⟩ := hb2 hf
        have h0 : emit_actual s = 0 := by simp [emit_actual, ha]
        exact absurd hpos (by omega)
      · show s.accumulated_emit - emit_actual s + (s.particles_count + emit_actual s) ≤
          s.max_particles
        have hle : emit_actual s ≤ s.accumulated_emit := Nat.min_le_left _ _
        omega
  · exact ⟨h1, h2, h3, h4, h5⟩

open ParticleSystem in
lemma inv_applyOp (op : Op) {s : ParticleSystem} (h : Inv s) : Inv (applyOp op s) := by
  obtain ⟨h1, h2, h3, h4, h5⟩ := h
  cases op with
  | update dt => exact inv_update dt ⟨h1, h2, h3, h4, h5⟩
  | emit => exact inv_emit ⟨h1, h2, h3, h4, h5⟩
  | render => exact ⟨h1, h2, h3, h4, h5⟩
  | restart =>
    refine ⟨Nat.zero_le _, rfl, Nat.le_refl _, h4, ?_⟩
    intro n hn
    obtain ⟨hb1, _, _⟩ := h5 n hn
    exact ⟨hb1, fun _ => ⟨rfl, rfl⟩, by show 0 + 0 ≤ s.max_particles; omega⟩
  | pause => exact ⟨h1, h2, h3, h4, h5⟩
  | resume => exact ⟨h1, h2, h3, h4, h5⟩
  | toggle_shape => exact ⟨h1, h2, h3, h4, h5⟩

lemma inv_run (ops : List Op) {s : ParticleSystem} (h : Inv s) : Inv (run ops s) := by
  induction ops generalizing s with
  | nil => exact h
  | cons op ops ih => exact ih (inv_applyOp op h)

lemma reachable_inv {s : ParticleSystem} (h : Reachable s) : Inv s := by
  obtain ⟨info, ops, rfl⟩ := h
  exact inv_run ops (inv_new info)

namespace ParticleSystem

set_option maxRecDepth 10000 in
lemma bState_one : bState 1 = { bState 1 with alive_particles := List.replicate 1000 2 } := by
  have h2 : (2 : ℚ) - (((1:ℕ) : ℚ) - 1) * (1/60) = 2 := by norm_num
  simp only [bState, h2]

set_option maxRecDepth 10000 in
lemma burst_frame_one :
    emit (update (1/60) (ParticleSystem.new burstInfo)) = bState 1 := by
  rw [bState_one]
  rfl

set_option maxRecDepth 10000 in
lemma burst_frame_step (j : ℕ) (hj1 : 1 ≤ j) (hj2 : j ≤ 119) :
    emit (update (1/60) (bState j)) = bState (j + 1) := by
  have hjq : (j : ℚ) ≤ 119 := by exact_mod_cast hj2
  have hpos : (0:ℚ) < (2 - ((j:ℚ) - 1) * (1/60)) - 1/60 := by linarith
  have hfr : j ≠ 0 := by omega
  have hst : (bState j).state = SimulationState.Playing := rfl
  rw [update_playing _ hst]
  have hinc : update_inc (1/60) (bState j) = 0 := by
    simp [update_inc, bState, hfr]
  have halive : (((bState j).alive_particles.map (fun q => q - (1/60))).filter
      (fun q => decide (0 < q))) = List.replicate 1000 ((2 - ((j:ℚ) - 1) * (1/60)) - 1/60) := by
    show ((List.replicate 1000 (2 - ((j:ℚ) - 1) * (1/60))).map (fun q => q - (1/60))).filter
      (fun q => decide (0 < q)) = _
    rw [List.map_replicate]
    exact filter_pos_replicate hpos
  rw [hinc, halive]
  have hval : (2 - ((j:ℚ) - 1) * (1/60)) - 1/60 = 2 - ((((j+1):ℕ):ℚ) - 1) * (1/60) := by
    push_cast
    ring
  rw [emit_eq]
  have hact : emit_actual
      { bState j with
        accumulated_emit := (bState j).accumulated_emit + 0
        alive_particles := List.replicate 1000 ((2 - ((j:ℚ) - 1) * (1/60)) - 1/60)
        compact_buffer := (List.replicate 1000 ((2 - ((j:ℚ) - 1) * (1/60)) - 1/60)).length
        current_buffer := 1 - (1 - (bState j).current_buffer)
        frame := (bState j).frame + 1 } = 0 := rfl
  rw [hact]
  simp only [lt_self_iff_false, if_false]
  simp only [List.length_replicate]
  rw [hval]
  rfl

set_option maxRecDepth 10000 in
lemma burst_frame_die : emit (update (1/60) (bState 120)) = bDead 121 := by
  have hst : (bState 120).state = SimulationState.Playing := rfl
  rw [update_playing _ hst]
  have hinc : update_inc (1/60) (bState 120) = 0 := by
    simp [update_inc, bState]
  have hnp : ¬ (0:ℚ) < (2 - (((120:ℕ):ℚ) - 1) * (1/60)) - 1/60 := by
    norm_num
  have halive : (((bState 120).alive_particles.map (fun q => q - (1/60))).filter
      (fun q => decide (0 < q))) = [] := by
    show ((List.replicate 1000 (2 - (((120:ℕ):ℚ) - 1) * (1/60))).map
      (fun q => q - (1/60))).filter (fun q => decide (0 < q)) = _
    rw [List.map_replicate]
    exact filter_nonpos_replicate hnp
  rw [hinc, halive]
  rw [emit_eq]
  norm_num [emit_actual]
  rfl

set_option maxRecDepth 10000 in
lemma burst_dead_step (j : ℕ) (hfr : j ≠ 0) :
    emit (update (1/60) (bDead j)) = bDead (j + 1) := by
  have hst : (bDead j).state = SimulationState.Playing := rfl
  rw [update_playing _ hst]
  have hinc : update_inc (1/60) (bDead j) = 0 := by
    simp [update_inc, bDead, hfr]
  rw [hinc]
  rw [emit_eq]
  norm_num [emit_actual]
  rfl

set_option maxRecDepth 10000 in
lemma burst_chain (j : ℕ) (hj1 : 1 ≤ j) (hj2 : j ≤ 120) :
    run (frame_ops j (1/60)) (ParticleSystem.new burstInfo) = bState j := by
  induction j with
  | zero => omega
  | succ k ih =>
    rw [run_frame_ops_succ]
    by_cases hk : k = 0
    · subst hk
      rw [run_frame_ops_zero]
      exact burst_frame_one
    · have hik : 1 ≤ k := by omega
      have hk2 : k ≤ 120 := by omega
      rw [ih hik hk2]
      exact burst_frame_step k hik (by omega)

set_option maxRecDepth 10000 in
lemma burst_dead_chain (m : ℕ) :
    run (frame_ops (121 + m) (1/60)) (ParticleSystem.new burstInfo) = bDead (121 + m) := by
  induction m with
  | zero =>
    rw [run_frame_ops_succ]
    rw [burst_chain 120 (by omega) (by omega)]
    exact burst_frame_die
  | succ m ih =>
    have h : 121 + (m + 1) = (121 + m) + 1 := by omega
    rw [h, run_frame_ops_succ, ih]
    exact burst_dead_step (121 + m) (by omega)

lemma cont_frames (rate : ℕ) (dt : ℚ) (k : ℕ) (s : ParticleSystem)
    (hmode : s.emission_mode = ParticleEmissionMode.Continuous rate)
    (hstate : s.state = SimulationState.Playing)
    (hacc : s.accumulated_emit = 0)
    (hcap : s.particles_count + k * (Int.floor ((rate : ℚ) * dt)).toNat ≤ s.max_particles) :
    (run (frame_ops k dt) s).particles_count
        = s.particles_count + k * (Int.floor ((rate : ℚ) * dt)).toNat ∧
    (run (frame_ops k dt) s).accumulated_emit = 0 ∧
    (run (frame_ops k dt) s).emission_mode = s.emission_mode ∧
    (run (frame_ops k dt) s).state = SimulationState.Playing ∧
    (run (frame_ops k dt) s).max_particles = s.max_particles := by
  induction k with
  | zero =>
    rw [run_frame_ops_zero]
    exact ⟨by omega, hacc, rfl, hstate, rfl⟩
  | succ k ih =>
    have hmul : k * (Int.floor ((rate : ℚ) * dt)).toNat
        ≤ (k + 1) * (Int.floor ((rate : ℚ) * dt)).toNat :=
      Nat.mul_le_mul_right _ (Nat.le_succ k)
    obtain ⟨ic, ia, im, ist, imax⟩ := ih (by omega)
    rw [run_frame_ops_succ]
    set t := run (frame_ops k dt) s with ht
    have hup := update_playing dt ist
    have hinct : update_inc dt t = (Int.floor ((rate : ℚ) * dt)).toNat := by
      have : t.emission_mode = ParticleEmissionMode.Continuous rate := by rw [im, hmode]
      simp [update_inc, this]
    have hu1 : (update dt t).particles_count = t.particles_count :=
      (update_preserves dt t).2.2.2.2.1
    have hu2 : (update dt t).accumulated_emit = (Int.floor ((rate : ℚ) * dt)).toNat := by
      rw [hup]
      show t.accumulated_emit + update_inc dt t = _
      rw [ia, hinct, Nat.zero_add]
    have hu3 : (update dt t).max_particles = t.max_particles := (update_preserves dt t).1
    have hu4 : (update dt t).emission_mode = t.emission_mode := (update_preserves dt t).2.1
    have hu5 : (update dt t).state = t.state := (update_preserves dt t).2.2.2.1
    have hact : emit_actual (update dt t) = (Int.floor ((rate : ℚ) * dt)).toNat := by
      unfold emit_actual
      rw [hu1, hu2, hu3, ic, imax]
      have hfits : s.particles_count + k * (Int.floor ((rate : ℚ) * dt)).toNat
          + (Int.floor ((rate : ℚ) * dt)).toNat ≤ s.max_particles := by
        have : (k + 1) * (Int.floor ((rate : ℚ) * dt)).toNat
            = k * (Int.floor ((rate : ℚ) * dt)).toNat + (Int.floor ((rate : ℚ) * dt)).toNat :=
          Nat.succ_mul _ _
        omega
      omega
    refine ⟨?_, ?_, ?_, ?_, ?_⟩
    · rw [emit_particles_count, hact, hu1, ic]
      have : (k + 1) * (Int.floor ((rate : ℚ) * dt)).toNat
          = k * (Int.floor ((rate : ℚ) * dt)).toNat + (Int.floor ((rate : ℚ) * dt)).toNat :=
        Nat.succ_mul _ _
      omega
    · rw [emit_accumulated_emit, hact, hu2]
      exact Nat.sub_self _
    · rw [(emit_preserves _).2.2.1, hu4, im]
    · rw [(emit_preserves _).2.2.2.2.2.1, hu5, ist]
    · rw [(emit_preserves _).1, hu3, imax]

lemma frame_ops_add (a b : ℕ) (dt : ℚ) :
    frame_ops (a + b) dt = frame_ops a dt ++ frame_ops b dt := by
  unfold frame_ops
  rw [List.replicate_add, List.flatten_append]

lemma saturated_frames (dt : ℚ) (k : ℕ) (s : ParticleSystem)
    (h : s.particles_count = s.max_particles) :
    (run (frame_ops k dt) s).particles_count = s.particles_count ∧
    (run (frame_ops k dt) s).max_particles = s.max_particles := by
  induction k with
  | zero => rw [run_frame_ops_zero]; exact ⟨rfl, rfl⟩
  | succ k ih =>
    obtain ⟨ic, imax⟩ := ih
    rw [run_frame_ops_succ]
    set t := run (frame_ops k dt) s with ht
    have hu1 : (update dt t).particles_count = t.particles_count :=
      (update_preserves dt t).2.2.2.2.1
    have hu3 : (update dt t).max_particles = t.max_particles := (update_preserves dt t).1
    have hact : emit_actual (update dt t) = 0 := by
      unfold emit_actual
      rw [hu1, hu3, ic, imax]
      omega
    constructor
    · rw [emit_particles_count, hact, hu1, ic]
      exact Nat.add_zero _
    · rw [(emit_preserves _).1, hu3, imax]

lemma mono_step (op : Op) (s : ParticleSystem) (h : op ≠ Op.restart) :
    s.particles_count ≤ (applyOp op s).particles_count := by
  cases op with
  | update dt => exact Nat.le_of_eq ((update_preserves dt s).2.2.2.2.1).symm
  | emit =>
    show s.particles_count ≤ (emit s).particles_count
    rw [emit_particles_count]
    exact Nat.le_add_right _ _
  | render => exact Nat.le_refl _
  | restart => exact absurd rfl h
  | pause => exact Nat.le_refl _
  | resume => exact Nat.le_refl _
  | toggle_shape => exact Nat.le_refl _

lemma mono_run (ops : List Op) (s : ParticleSystem)
    (h : ∀ op ∈ ops, op ≠ Op.restart) :
    s.particles_count ≤ (run ops s).particles_count := by
  induction ops generalizing s with
  | nil => exact Nat.le_refl _
  | cons op ops ih =>
    calc s.particles_count
        ≤ (applyOp op s).particles_count := mono_step op s (h op (List.mem_cons_self _ _))
      _ ≤ (run ops (applyOp op s)).particles_count :=
          ih (applyOp op s) (fun o ho => h o (List.mem_cons_of_mem _ ho))

end ParticleSystem

namespace Claims

open ParticleSystem

/-- Claim C1 counterexample: with `Continuous(100)` and fixed `dt = 1/60`,
one simulated second (60 frames of `update` then `emit`) emits exactly 60
particles, not 100: `accumulated_emit` is a `u32` and each update adds
`(rate as f32 * delta_time) as u32 = ⌊100·(1/60)⌋ = 1`, discarding the
fractional part of `rate × dt` every frame rather than carrying it, so the
long-run average emission is `⌊rate·dt⌋/dt = 60` per second, not
`rate = 100` — refuting the claimed fractional carry and convergence. -/
theorem c1_continuous_carry_cex :
    (run (frame_ops 60 (1/60)) (ParticleSystem.new contInfo)).particles_count = 60 ∧
    (run (frame_ops 60 (1/60)) (ParticleSystem.new contInfo)).particles_count ≠ 100 := by
  have hfl : (Int.floor ((((100:ℕ)) : ℚ) * (1/60))).toNat = 1 := by
    norm_num
  have hcap : (ParticleSystem.new contInfo).particles_count +
      60 * (Int.floor ((((100:ℕ)) : ℚ) * (1/60))).toNat ≤
      (ParticleSystem.new contInfo).max_particles := by
    show 0 + 60 * (Int.floor ((((100:ℕ)) : ℚ) * (1/60))).toNat ≤ 100
    rw [hfl]
    omega
  obtain ⟨hc, -, -, -, -⟩ :=
    cont_frames 100 (1/60) 60 (ParticleSystem.new contInfo) rfl rfl rfl hcap
  rw [hfl] at hc
  have hc60 : (run (frame_ops 60 (1/60)) (ParticleSystem.new contInfo)).particles_count = 60 := by
    rw [hc]
    rfl
  exact ⟨hc60, by rw [hc60]; omega⟩

/-- Claim C1 (amended): in `Continuous(rate)` mode each un-paused update
adds the truncated product `(⌊rate × dt⌋ : u32)` to `accumulated_emit` — the
fractional part of `rate × dt` is discarded every frame, not carried — and
`emit` consumes the accumulator subtracting what it emitted, clamped to the
free capacity.  While cumulative emission still fits the store, `k` frames
of fixed `dt` emit exactly `k·⌊rate·dt⌋` particles (60 in the first
simulated second for `rate = 100`, `dt = 1/60`, not 100); and because the
CPU-side `particles_count` is never decreased by particle deaths, once it
reaches `max_particles` every later frame emits 0, so no long-run per-second
emission average converges to `rate`: the transient rate is `⌊rate·dt⌋/dt`
and the long-run average is 0. -/
theorem c1_continuous_truncated (rate k : ℕ) (dt : ℚ) (s : ParticleSystem) :
    (s.state = SimulationState.Playing →
      s.emission_mode = ParticleEmissionMode.Continuous rate →
      (update dt s).accumulated_emit
        = s.accumulated_emit + (Int.floor ((rate : ℚ) * dt)).toNat) ∧
    (s.emission_mode = ParticleEmissionMode.Continuous rate →
      s.state = SimulationState.Playing →
      s.accumulated_emit = 0 →
      s.particles_count + k * (Int.floor ((rate : ℚ) * dt)).toNat ≤ s.max_particles →
      (run (frame_ops k dt) s).particles_count
          = s.particles_count + k * (Int.floor ((rate : ℚ) * dt)).toNat ∧
      (run (frame_ops k dt) s).accumulated_emit = 0) ∧
    (s.particles_count = s.max_particles →
      (run (frame_ops k dt) s).particles_count = s.particles_count) := by
  refine ⟨?_, ?_, ?_⟩
  · intro hst hmode
    rw [update_playing dt hst]
    show s.accumulated_emit + update_inc dt s = _
    simp [update_inc, hmode]
  · intro hmode hst hacc hcap
    obtain ⟨h1, h2, -, -, -⟩ := cont_frames rate dt k s hmode hst hacc hcap
    exact ⟨h1, h2⟩
  · intro hfull
    exact (saturated_frames dt k s hfull).1

/-- Witness for C1's amended theorem at `rate = 100`, `dt = 1/60`, on a
freshly constructed system: one update accumulates 1, the first simulated
second (60 frames) emits 60, capacity (100) is reached after 100 frames,
and 60 further frames — the whole second simulated second and beyond — emit
nothing: the count is still 100 after 160 frames. -/
theorem c1_continuous_truncated_witness :
    (update (1/60) (ParticleSystem.new contInfo)).accumulated_emit = 1 ∧
    (run (frame_ops 60 (1/60)) (ParticleSystem.new contInfo)).particles_count = 60 ∧
    (run (frame_ops 100 (1/60)) (ParticleSystem.new contInfo)).particles_count = 100 ∧
    (run (frame_ops 160 (1/60)) (ParticleSystem.new contInfo)).particles_count = 100 := by
  have hfl : (Int.floor ((((100:ℕ)) : ℚ) * (1/60))).toNat = 1 := by norm_num
  have h60 := c1_continuous_truncated 100 60 (1/60) (ParticleSystem.new contInfo)
  have h100 := c1_continuous_truncated 100 100 (1/60) (ParticleSystem.new contInfo)
  have hcap : ∀ k : ℕ, k ≤ 100 → (ParticleSystem.new contInfo).particles_count +
      k * (Int.floor ((((100:ℕ)) : ℚ) * (1/60))).toNat ≤
      (ParticleSystem.new contInfo).max_particles := by
    intro k hk
    show 0 + k * (Int.floor ((((100:ℕ)) : ℚ) * (1/60))).toNat ≤ 100
    rw [hfl]
    omega
  have hc100 : (run (frame_ops 100 (1/60)) (ParticleSystem.new contInfo)).particles_count
      = 100 := by
    have := (h100.2.1 rfl rfl rfl (hcap 100 (by omega))).1
    rw [hfl] at this
    rw [this]
    rfl
  refine ⟨?_, ?_, hc100, ?_⟩
  · rw [h60.1 rfl rfl, hfl]
    rfl
  · have := (h60.2.1 rfl rfl rfl (hcap 60 (by omega))).1
    rw [hfl] at this
    rw [this]
    rfl
  · have hmax : (run (frame_ops 100 (1/60)) (ParticleSystem.new contInfo)).max_particles
        = 100 := by
      obtain ⟨-, -, -, -, hm⟩ :=
        cont_frames 100 (1/60) 100 (ParticleSystem.new contInfo) rfl rfl rfl
          (hcap 100 (by omega))
      rw [hm]
      rfl
    have hsat := c1_continuous_truncated 100 60 (1/60)
      (run (frame_ops 100 (1/60)) (ParticleSystem.new contInfo))
    have h160 : frame_ops 160 (1/60) = frame_ops 100 (1/60) ++ frame_ops 60 (1/60) :=
      frame_ops_add 100 60 (1/60)
    rw [h160, run_append, hsat.2.2 (by rw [hc100, hmax]), hc100]

/-- Claim C2 counterexample: `emit` is not gated by the pause state.  From a
fresh `Continuous(100)` system, one update at `dt = 1/60` (accumulating 1
pending particle) followed by `pause` reaches a paused state in which
invoking `emit` changes both `particles_count` (0 to 1) and
`accumulated_emit` (1 to 0) — refuting "invoking update, compact, or emit
while paused leaves alive_count … and accumulated_emit unchanged". -/
theorem c2_pause_gate_cex :
    (pause (update (1/60) (ParticleSystem.new contInfo))).state
        = SimulationState.Paused ∧
    (pause (update (1/60) (ParticleSystem.new contInfo))).particles_count = 0 ∧
    (pause (update (1/60) (ParticleSystem.new contInfo))).accumulated_emit = 1 ∧
    (emit (pause (update (1/60) (ParticleSystem.new contInfo)))).particles_count = 1 ∧
    (emit (pause (update (1/60) (ParticleSystem.new contInfo)))).accumulated_emit = 0 := by
  have hfl : (Int.floor ((100 : ℚ) * (1/60))).toNat = 1 := by norm_num
  set p := pause (update (1/60) (ParticleSystem.new contInfo)) with hp
  have hacc : p.accumulated_emit = 1 := by
    rw [hp]
    show (update (1/60) (ParticleSystem.new contInfo)).accumulated_emit = 1
    rw [update_playing _ rfl]
    show 0 + update_inc (1/60) (ParticleSystem.new contInfo) = 1
    norm_num [update_inc, ParticleSystem.new, contInfo]
  have hcount : p.particles_count = 0 := by
    rw [hp]
    show (update (1/60) (ParticleSystem.new contInfo)).particles_count = 0
    rw [(update_preserves _ _).2.2.2.2.1]
    rfl
  have hmax : p.max_particles = 100 := by
    rw [hp]
    show (update (1/60) (ParticleSystem.new contInfo)).max_particles = 100
    rw [(update_preserves _ _).1]
    rfl
  have hact : emit_actual p = 1 := by
    unfold emit_actual
    rw [hacc, hcount, hmax]
    omega
  refine ⟨rfl, hcount, hacc, ?_, ?_⟩
  · rw [emit_particles_count, hact, hcount]
  · rw [emit_accumulated_emit, hact, hacc]

/-- Claim C2 (amended): while `Paused`, `update` — which contains the
Update and Compact stages — returns immediately and leaves the entire state
(alive count, buffer contents, accumulator, frame, role) unchanged, and
`render` runs regardless of state and never mutates simulation state; but
`emit` has no pause gate: invoking it while paused leaves the state
unchanged only when the pending accumulator is zero (with pending particles
and free capacity it emits, as the counterexample shows). -/
theorem c2_pause_skips_update (dt : ℚ) (s : ParticleSystem) :
    (s.state = SimulationState.Paused → update dt s = s) ∧
    (s.accumulated_emit = 0 → emit s = s) ∧
    render s = s := by
  refine ⟨update_paused dt, ?_, rfl⟩
  intro h
  rw [emit_eq]
  have : emit_actual s = 0 := by simp [emit_actual, h]
  rw [this]
  simp

/-- Witness for C2's amended theorem: a concrete paused state on which
`update` is the identity, and a zero-accumulator state on which `emit` is
the identity. -/
theorem c2_pause_skips_update_witness :
    update (1/60) (pause (ParticleSystem.new contInfo))
        = pause (ParticleSystem.new contInfo) ∧
    emit (ParticleSystem.new contInfo) = ParticleSystem.new contInfo := by
  exact ⟨(c2_pause_skips_update (1/60) (pause (ParticleSystem.new contInfo))).1 rfl,
         (c2_pause_skips_update (1/60) (ParticleSystem.new contInfo)).2.1 rfl⟩

/-- Claim C3: in every reachable state — under any sequence of
construction, update, emit, restart, pause, resume, toggle_shape (and
render) — `particles_count ≤ max_particles`, and the slots an `emit` call
writes (spec §4.2: `alive_count + local_atomic_offset`, modelled in
`emit_write_slots` since the emit shader is outside the source tree) all
lie inside `[0, max_particles)`. -/
theorem c3_capacity_invariant (s : ParticleSystem) (h : Reachable s) :
    s.particles_count ≤ s.max_particles ∧
    ∀ i ∈ emit_write_slots s, i < s.max_particles := by
  obtain ⟨h1, h2, h3, -, -⟩ := reachable_inv h
  refine ⟨h1, ?_⟩
  intro i hi
  simp only [emit_write_slots, List.mem_map, List.mem_range] at hi
  obtain ⟨j, hj, rfl⟩ := hi
  have hmin : emit_actual s ≤ s.max_particles - s.particles_count :=
    Nat.min_le_right _ _
  omega

/-- Witness for C3 on a concrete reachable state: a burst system after one
update (1000 particles pending, none yet emitted). -/
theorem c3_capacity_invariant_witness :
    (update (1/60) (ParticleSystem.new burstInfo)).particles_count ≤
        (update (1/60) (ParticleSystem.new burstInfo)).max_particles ∧
    ∀ i ∈ emit_write_slots (update (1/60) (ParticleSystem.new burstInfo)),
      i < (update (1/60) (ParticleSystem.new burstInfo)).max_particles :=
  c3_capacity_invariant _ ⟨burstInfo, [Op.update (1/60)], rfl⟩

/-- Claim C4: an `emit` call always emits exactly
`min(accumulated_emit, max_particles − particles_count)` particles —
silently clamping, never failing — and subtracts exactly that amount from
the accumulator, so the unconsumed remainder stays accumulated for the
next frame; in burst mode, in every reachable state, the accumulator is 0
after `emit` (the burst fires once into a buffer sized to hold it whole,
so the remainder carried and the remainder dropped coincide at zero). -/
theorem c4_emit_clamps (s : ParticleSystem) :
    (emit s).particles_count
        = s.particles_count + min s.accumulated_emit (s.max_particles - s.particles_count) ∧
    (emit s).accumulated_emit
        = s.accumulated_emit - min s.accumulated_emit (s.max_particles - s.particles_count) ∧
    (Reachable s → ∀ n, s.emission_mode = ParticleEmissionMode.Burst n →
      (emit s).accumulated_emit = 0) := by
  refine ⟨emit_particles_count s, emit_accumulated_emit s, ?_⟩
  intro h n hn
  obtain ⟨-, -, -, -, h5⟩ := reachable_inv h
  obtain ⟨-, -, hb3⟩ := h5 n hn
  rw [emit_accumulated_emit]
  have : emit_actual s = s.accumulated_emit := by
    unfold emit_actual
    omega
  omega

/-- Witness for C4 at a reachable burst state with 1000 pending particles:
emission clamps to `min(1000, 1000 - 0)` and zeroes the accumulator. -/
theorem c4_emit_clamps_witness :
    (emit (update (1/60) (ParticleSystem.new burstInfo))).particles_count
        = (update (1/60) (ParticleSystem.new burstInfo)).particles_count +
          min (update (1/60) (ParticleSystem.new burstInfo)).accumulated_emit
            ((update (1/60) (ParticleSystem.new burstInfo)).max_particles -
              (update (1/60) (ParticleSystem.new burstInfo)).particles_count) ∧
    (emit (update (1/60) (ParticleSystem.new burstInfo))).accumulated_emit = 0 := by
  have h := c4_emit_clamps (update (1/60) (ParticleSystem.new burstInfo))
  exact ⟨h.1, h.2.2 ⟨burstInfo, [Op.update (1/60)], rfl⟩ 1000 ((update_preserves _ _).2.1)⟩

/-- Claim C5: for a `Burst(n)` system, every un-paused `update` increments
the frame counter by exactly 1, and the emission request it accumulates is
`n` when the frame counter is 0 (the very first un-paused frame) and 0 on
every later frame. -/
theorem c5_burst_first_frame (dt : ℚ) (s : ParticleSystem) (n : ℕ)
    (hst : s.state = SimulationState.Playing)
    (hmode : s.emission_mode = ParticleEmissionMode.Burst n) :
    (update dt s).frame = s.frame + 1 ∧
    (update dt s).accumulated_emit
        = s.accumulated_emit + (if s.frame = 0 then n else 0) := by
  rw [update_playing dt hst]
  refine ⟨rfl, ?_⟩
  show s.accumulated_emit + update_inc dt s = _
  simp [update_inc, hmode]

/-- Witness for C5 on a fresh `Burst(1000)` system at frame 0. -/
theorem c5_burst_first_frame_witness :
    (update (1/60) (ParticleSystem.new burstInfo)).frame = 1 ∧
    (update (1/60) (ParticleSystem.new burstInfo)).accumulated_emit = 1000 := by
  have h := c5_burst_first_frame (1/60) (ParticleSystem.new burstInfo) 1000 rfl rfl
  exact ⟨h.1, h.2⟩

/-- Claim C6: the spec's end-to-end scenario.  A system constructed with
`Burst(1000)`, lifetime 2 s, `Point` shape, stepped one frame (`update`
then `emit`) at `dt = 1/60`: after 60 frames the authoritative alive count
(the compact counter, spec §3/§4.4 — the GPU aging/compaction is modelled
from the spec, the shaders being outside the source tree) is 1000 (no
deaths yet), and after 120 further frames (180 total, 3 s of stepping ≥ 2 s
of life) it is 0: every particle expired and none was re-emitted, the burst
firing only on frame 0. -/
theorem c6_burst_end_to_end :
    (run (frame_ops 60 (1/60)) (ParticleSystem.new burstInfo)).compact_buffer = 1000 ∧
    (run (frame_ops 180 (1/60)) (ParticleSystem.new burstInfo)).compact_buffer = 0 := by
  constructor
  · rw [burst_chain 60 (by omega) (by omega)]
    rfl
  · have h : (180 : ℕ) = 121 + 59 := by omega
    rw [h, burst_dead_chain 59]
    rfl

/-- Claim C7: after `restart()` on any reachable state, the alive count,
emission accumulator, frame clock and counter buffer are all zero, the
role index is 0, the state is forced to `Playing`, and the particle store
is neither resized nor reconfigured (`max_particles`, `emission_mode`,
`lifetime` unchanged). -/
theorem c7_restart_resets (s : ParticleSystem) (h : Reachable s) :
    (restart s).particles_count = 0 ∧
    (restart s).accumulated_emit = 0 ∧
    (restart s).frame = 0 ∧
    (restart s).compact_buffer = 0 ∧
    (restart s).current_buffer = 0 ∧
    (restart s).state = SimulationState.Playing ∧
    (restart s).max_particles = s.max_particles ∧
    (restart s).emission_mode = s.emission_mode ∧
    (restart s).lifetime = s.lifetime := by
  obtain ⟨-, -, -, h4, -⟩ := reachable_inv h
  exact ⟨rfl, rfl, rfl, rfl, h4, rfl, rfl, rfl, rfl⟩

/-- Witness for C7 on a concrete reachable state (one update and one emit
into a burst system). -/
theorem c7_restart_resets_witness :
    (restart (emit (update (1/60) (ParticleSystem.new burstInfo)))).particles_count = 0 ∧
    (restart (emit (update (1/60) (ParticleSystem.new burstInfo)))).state
        = SimulationState.Playing ∧
    (restart (emit (update (1/60) (ParticleSystem.new burstInfo)))).max_particles
        = (emit (update (1/60) (ParticleSystem.new burstInfo))).max_particles := by
  have h := c7_restart_resets (emit (update (1/60) (ParticleSystem.new burstInfo)))
    ⟨burstInfo, [Op.update (1/60), Op.emit], rfl⟩
  exact ⟨h.1, h.2.2.2.2.2.1, h.2.2.2.2.2.2.1⟩

/-- Claim C8: the store capacity fixed at construction is the burst count
for `Burst(n)` and `rate * lifetime.ceil() as u32` for `Continuous(rate)`
(the sizing that lets steady-state continuous emission fit). -/
theorem c8_capacity_formula (shape : ParticleShape) (lt : ℚ) (n rate : ℕ) :
    (ParticleSystem.new
      { shape := shape, emission_mode := ParticleEmissionMode.Burst n,
        lifetime := lt }).max_particles = n ∧
    (ParticleSystem.new
      { shape := shape, emission_mode := ParticleEmissionMode.Continuous rate,
        lifetime := lt }).max_particles = rate * (Int.ceil lt).toNat :=
  ⟨rfl, rfl⟩

/-- Claim C9: `swap_buffer` is pure bookkeeping — it sets the role index to
`1 - current_buffer` (flipping 0 and 1) and moves no data (all other
fields unchanged); on role indices in `{0, 1}` it is an involution; an
un-paused `update` swaps exactly once after its Update pass and once after
its Compact pass (visible in the definition of `update`), so
`current_buffer` after `update` equals its value before; and `emit` never
changes the role index, writing in place into the current buffer. -/
theorem c9_swap_buffer_bookkeeping (dt : ℚ) (s : ParticleSystem) :
    (swap_buffer s).current_buffer = 1 - s.current_buffer ∧
    (swap_buffer s).particles_count = s.particles_count ∧
    (swap_buffer s).alive_particles = s.alive_particles ∧
    (swap_buffer s).compact_buffer = s.compact_buffer ∧
    (swap_buffer s).accumulated_emit = s.accumulated_emit ∧
    (swap_buffer s).max_particles = s.max_particles ∧
    (s.current_buffer ≤ 1 →
      swap_buffer (swap_buffer s) = s ∧
      (update dt s).current_buffer = s.current_buffer) ∧
    (emit s).current_buffer = s.current_buffer := by
  refine ⟨rfl, rfl, rfl, rfl, rfl, rfl, ?_, (emit_preserves s).2.1⟩
  intro hc
  constructor
  · ext <;> simp [swap_buffer]
    omega
  · cases hst : s.state with
    | Playing =>
      rw [update_playing dt hst]
      show 1 - (1 - s.current_buffer) = s.current_buffer
      omega
    | Paused => rw [update_paused dt hst]

/-- Witness for C9 at a fresh system (role index 0). -/
theorem c9_swap_buffer_bookkeeping_witness :
    swap_buffer (swap_buffer (ParticleSystem.new contInfo)) = ParticleSystem.new contInfo ∧
    (update (1/60) (ParticleSystem.new contInfo)).current_buffer
        = (ParticleSystem.new contInfo).current_buffer ∧
    (swap_buffer (ParticleSystem.new contInfo)).current_buffer = 1 := by
  have h := c9_swap_buffer_bookkeeping (1/60) (ParticleSystem.new contInfo)
  have hc := h.2.2.2.2.2.2.1 (by show (0:ℕ) ≤ 1; omega)
  exact ⟨hc.1, hc.2, h.1⟩

/-- Claim C10: the CPU-side `particles_count` is monotonically
non-decreasing under every sequence of update, emit, pause, resume,
toggle_shape and render calls that contains no restart (`emit` only adds,
and no operation — in particular no particle death, which is purely
GPU-side — ever subtracts); `restart` is the only operation that lowers
it, setting it to 0. -/
theorem c10_count_monotone (ops : List Op) (s : ParticleSystem) :
    ((∀ op ∈ ops, op ≠ Op.restart) →
      s.particles_count ≤ (run ops s).particles_count) ∧
    (restart s).particles_count = 0 :=
  ⟨mono_run ops s, rfl⟩

/-- Witness for C10 on a restart-free sequence from a fresh burst system. -/
theorem c10_count_monotone_witness :
    (ParticleSystem.new burstInfo).particles_count ≤
      (run [Op.update (1/60), Op.emit, Op.pause, Op.render]
        (ParticleSystem.new burstInfo)).particles_count ∧
    (restart (ParticleSystem.new burstInfo)).particles_count = 0 := by
  have h := c10_count_monotone [Op.update (1/60), Op.emit, Op.pause, Op.render]
    (ParticleSystem.new burstInfo)
  refine ⟨h.1 ?_, h.2⟩
  intro op hop
  fin_cases hop <;> simp

end Claims

end PSys
